import Mathlib

/-!
Verification development for the `fast-json-stringify` JSON optimizer SDK
(source: `src/dist/index.cjs`, a single class `JSONOptimizer` with methods
`validate`, `_validateObject`, `_generateSummary`, `optimize`, `stringify`,
`benchmark`).

The value trees the SDK inspects are arbitrary JavaScript values.  We embed
them shallowly as the mutual inductive family `JVal`/`JVals`/`JFields`:

* primitives (`null`, `undefined`, string, number, boolean, function) are
  leaves — `_validateObject` returns without warnings on all of them and
  `optimize` passes them through unchanged;
* an array node carries its element list (`Array.isArray` objects take the
  early-return branch at line 59, so none of the per-object detector rules
  can observe any other array feature);
* a non-array object node carries: its own enumerable string-keyed
  properties in enumeration order (what `Object.keys` yields), its own
  non-enumerable string-keyed properties (what
  `Object.getOwnPropertyNames` + descriptor filtering yields, line 117-121),
  the number of own symbol keys (`Object.getOwnPropertySymbols(obj).length`,
  line 106), and a description of its prototype.

A prototype is either the default `Object.prototype`, the default
`Array.prototype`, `null`, or a custom prototype, for which we record the
single bit the source ever observes about it: whether `proto.toJSON` is a
callable (line 79).  Property lookup `obj.toJSON` (line 67) consults own
properties first (enumerable or not) and then the prototype chain.

The key test at lines 91-94 and 167-168 uses the platform conversions
`Number(key)` and `String(num)`.  Those are modelled exactly on decimal
values by `jsStringToNumber`/`jsNumToString` below (ECMA-262
StringNumericLiteral parsing and Number::toString printing over exact
decimal significand-exponent pairs; binary64 rounding only diverges from
this model on inputs with more than 15-17 significant digits, far beyond
every key examined here).
-/

/-- Impact tier of a warning: the source stores the strings
`high`, `medium`, `low`. -/
inductive Impact where
  | high
  | medium
  | low
deriving DecidableEq, Repr

/-- One warning object as pushed onto `this.warnings`: fields `type`
(called `wtype` here because `type` is a Lean keyword), optional `path`,
`message`, `impact`, `suggestion`. -/
structure Warning where
  wtype : String
  path : Option String
  message : String
  impact : Impact
  suggestion : String
deriving DecidableEq, Repr

/-- What the source can observe of `Object.getPrototypeOf(obj)`:
the two default prototypes, `null`, or a custom prototype together with
whether `typeof proto.toJSON === 'function'`. -/
inductive ProtoKind where
  | objectProto
  | arrayProto
  | nullProto
  | custom (protoToJSONCallable : Bool)
deriving DecidableEq, Repr

mutual
/-- A JavaScript value tree as observed by the SDK (see the header
comment for the correspondence with the source). -/
inductive JVal where
  | vnull
  | vundef
  | vstr (s : String)
  | vnum (n : Int)
  | vbool (b : Bool)
  | vfun
  | varr (elems : JVals)
  | vobj (fields : JFields) (nonEnum : JFields) (symCount : Nat) (proto : ProtoKind)
/-- A list of array elements. -/
inductive JVals where
  | nil
  | cons (head : JVal) (tail : JVals)
/-- String-keyed own properties in enumeration order. -/
inductive JFields where
  | nil
  | cons (key : String) (value : JVal) (tail : JFields)
end

/-- The `replacer` argument: the API type is `Function|null` and the source
only ever tests `replacer !== null` (line 24). -/
inductive ReplacerArg where
  | rnull
  | rfun
deriving DecidableEq, Repr

/-- The `space` argument: the API type is `string|number|null` and the
source tests `space !== null && space !== undefined` (line 33). -/
inductive SpaceArg where
  | snull
  | sundef
  | sstr (s : String)
  | snum (n : Int)
deriving DecidableEq, Repr

/-!
## Model of the platform conversions `Number(string)` and `String(number)`

Used only through the indexed-key test
`!isNaN(num) && num >= 0 && String(num) === key` (lines 91-94, 167-168).
A JavaScript number is modelled as NaN, a signed infinity, or an exact
decimal `(-1)^neg * mant * 10^exp`.
-/

/-- A JavaScript number as needed by the key round-trip test. -/
inductive JSNum where
  | nan
  | inf (neg : Bool)
  | dec (neg : Bool) (mant : Nat) (exp : Int)
deriving DecidableEq, Repr

/-- JavaScript whitespace stripped by `Number(string)` (ECMA-262
StringNumericLiteral allows leading/trailing WhiteSpace/LineTerminator). -/
def isJsWhitespace (c : Char) : Bool :=
  c == ' ' || c == '\t' || c == '\n' || c == '\r' || c == '\x0b' || c == '\x0c' || c == '\xa0'

/-- Strip leading and trailing JavaScript whitespace. -/
def trimWs (cs : List Char) : List Char :=
  ((cs.dropWhile isJsWhitespace).reverse.dropWhile isJsWhitespace).reverse

/-- Numeric value of a decimal digit character. -/
def digitVal (c : Char) : Nat := c.toNat - '0'.toNat

/-- Split a character list into its leading run of decimal digits and the
rest. -/
def spanDigits : List Char → (List Char × List Char)
  | [] => ([], [])
  | c :: cs =>
    if c.isDigit then
      let (d, r) := spanDigits cs
      (c :: d, r)
    else ([], c :: cs)

/-- Natural number denoted by a list of decimal digits. -/
def natOfDigits (ds : List Char) : Nat :=
  ds.foldl (fun a c => 10 * a + digitVal c) 0

/-- Value of a digit character in radix `b` (2, 8 or 16), if valid. -/
def radixDigitVal (b : Nat) (c : Char) : Option Nat :=
  let v : Option Nat :=
    if c.isDigit then some (digitVal c)
    else if 'a' ≤ c && c ≤ 'f' then some (c.toNat - 'a'.toNat + 10)
    else if 'A' ≤ c && c ≤ 'F' then some (c.toNat - 'A'.toNat + 10)
    else none
  match v with
  | some d => if d < b then some d else none
  | none => none

/-- Natural number denoted by a list of radix-`b` digits, if all valid. -/
def natOfRadixDigits (b : Nat) : List Char → Option Nat
  | [] => some 0
  | c :: cs =>
    match radixDigitVal b c, natOfRadixDigits b cs with
    | some _, some _ =>
      (natOfRadixDigits b cs).bind fun rest =>
        (radixDigitVal b c).map fun d => d * b ^ cs.length + rest
    | _, _ => none

/-- Parse the exponent digits of a decimal literal (nonempty, all digits). -/
def expDigits (ds : List Char) (neg : Bool) : Option Int :=
  if ds.isEmpty then none
  else if ds.all Char.isDigit then
    some (if neg then -(natOfDigits ds : Int) else (natOfDigits ds : Int))
  else none

/-- Parse the optional `ExponentPart` of a decimal literal; the whole rest
of the input must be consumed. -/
def parseExpPart : List Char → Option Int
  | [] => some 0
  | c :: rest =>
    if c == 'e' || c == 'E' then
      match rest with
      | '+' :: ds => expDigits ds false
      | '-' :: ds => expDigits ds true
      | ds => expDigits ds false
    else none

/-- Parse an unsigned `StrUnsignedDecimalLiteral`
(`Digits [. Digits] [Exp]` or `. Digits [Exp]`); anything else is NaN. -/
def parseDec (cs : List Char) (neg : Bool) : JSNum :=
  let (ip, r1) := spanDigits cs
  match r1 with
  | '.' :: r2 =>
    let (fp, r3) := spanDigits r2
    if ip.isEmpty && fp.isEmpty then .nan
    else
      match parseExpPart r3 with
      | some e => .dec neg (natOfDigits (ip ++ fp)) (e - fp.length)
      | none => .nan
  | _ =>
    if ip.isEmpty then .nan
    else
      match parseExpPart r1 with
      | some e => .dec neg (natOfDigits ip) e
      | none => .nan

/-- Parse a possibly signed numeric body: `Infinity` or a decimal literal. -/
def parseSigned (cs : List Char) (neg : Bool) : JSNum :=
  if cs = ['I', 'n', 'f', 'i', 'n', 'i', 't', 'y'] then .inf neg
  else parseDec cs neg

/-- Parse a `0x`/`0o`/`0b` radix literal body (digits after the prefix). -/
def parseRadix (ds : List Char) (b : Nat) : JSNum :=
  if ds.isEmpty then .nan
  else
    match natOfRadixDigits b ds with
    | some v => .dec false v 0
    | none => .nan

/-- The platform conversion `Number(string)` (ECMA-262 StringNumericLiteral),
modelled with exact decimal arithmetic. -/
def jsStringToNumber (s : String) : JSNum :=
  let cs := trimWs s.toList
  match cs with
  | [] => .dec false 0 0
  | '+' :: rest => parseSigned rest false
  | '-' :: rest => parseSigned rest true
  | '0' :: c :: rest =>
    if c == 'x' || c == 'X' then parseRadix rest 16
    else if c == 'o' || c == 'O' then parseRadix rest 8
    else if c == 'b' || c == 'B' then parseRadix rest 2
    else parseSigned cs false
  | _ => parseSigned cs false

/-- Does the number model `NaN` (the `isNaN(num)` test of line 93)? -/
def jsIsNaN : JSNum → Bool
  | .nan => true
  | _ => false

/-- The comparison `num >= 0` of line 93 (`NaN >= 0` is false, `-0 >= 0`
and `Infinity >= 0` are true). -/
def jsNumGe0 : JSNum → Bool
  | .nan => false
  | .inf neg => !neg
  | .dec neg mant _ => !neg || mant == 0

/-- Print a positive exact decimal `mant * 10^exp` (`mant > 0`) following
ECMA-262 Number::toString radix 10: normalize away trailing zeros of the
significand, then choose plain, fractional, leading-zero or exponent form
from the decimal-point position `n`. -/
def decToString (mant : Nat) (exp : Int) : String :=
  let ds := (toString mant).toList
  let tz := (ds.reverse.takeWhile (fun c => c == '0')).length
  let s := ds.take (ds.length - tz)
  let e : Int := exp + tz
  let k : Int := s.length
  let n : Int := e + k
  if k ≤ n ∧ n ≤ 21 then String.mk (s ++ List.replicate (n - k).toNat '0')
  else if 0 < n ∧ n ≤ 21 then
    String.mk (s.take n.toNat) ++ "." ++ String.mk (s.drop n.toNat)
  else if -6 < n ∧ n ≤ 0 then
    "0." ++ String.mk (List.replicate (-n).toNat '0' ++ s)
  else
    let ei := n - 1
    let estr := if 0 ≤ ei then "e+" ++ toString ei.toNat else "e-" ++ toString (-ei).toNat
    if s.length = 1 then String.mk s ++ estr
    else String.mk (s.take 1) ++ "." ++ String.mk (s.drop 1) ++ estr

/-- The platform conversion `String(number)`. -/
def jsNumToString : JSNum → String
  | .nan => "NaN"
  | .inf true => "-Infinity"
  | .inf false => "Infinity"
  | .dec neg mant exp =>
    if mant = 0 then "0"
    else (if neg then "-" else "") ++ decToString mant exp

/-- The indexed-key test of lines 91-94 (and, identically, lines 167-168):
`const num = Number(key); !isNaN(num) && num >= 0 && String(num) === key`. -/
def indexedKeyTest (key : String) : Bool :=
  let num := jsStringToNumber key
  !(jsIsNaN num) && jsNumGe0 num && (jsNumToString num == key)

/-!
## Warning constructors (the seven literal warning objects of the source)
-/

/-- ASCII apostrophe, used inside one suggestion string. -/
def apostr : String := String.singleton (Char.ofNat 39)

/-- Warning pushed at line 25 when `replacer !== null`. -/
def replacerWarning : Warning :=
  { wtype := "replacer"
    path := none
    message := "Replacer function prevents fast path optimization"
    impact := .high
    suggestion := "Remove replacer if possible, or transform data before serialization" }

/-- Warning pushed at line 34 when `space !== null && space !== undefined`. -/
def spaceWarning : Warning :=
  { wtype := "space"
    path := none
    message := "Space/gap argument prevents fast path optimization"
    impact := .high
    suggestion := "Remove space parameter for compact serialization, or format after serialization" }

/-- Warning pushed at line 68 when `typeof obj.toJSON === 'function'`. -/
def toJSONWarning (path : String) : Warning :=
  { wtype := "toJSON"
    path := some path
    message := "Custom toJSON() method found at " ++ path
    impact := .high
    suggestion := "Remove toJSON() or call it manually before serialization" }

/-- Warning pushed at line 80 for a non-default prototype with callable
`toJSON`. -/
def protoToJSONWarning (path : String) : Warning :=
  { wtype := "prototype-toJSON"
    path := some path
    message := "Prototype has custom toJSON() at " ++ path
    impact := .high
    suggestion := "Use plain objects without custom prototypes" }

/-- Warning pushed at line 97 when some own enumerable key passes the
indexed-key test. -/
def indexedWarning (path : String) : Warning :=
  { wtype := "indexed-properties"
    path := some path
    message := "Object has indexed properties at " ++ path
    impact := .medium
    suggestion := "Use arrays for indexed data or rename keys to non-numeric strings" }

/-- Warning pushed at line 108 when the object has own symbol keys. -/
def symbolKeysWarning (path : String) : Warning :=
  { wtype := "symbol-keys"
    path := some path
    message := "Object has Symbol keys at " ++ path
    impact := .low
    suggestion := "Symbols are ignored in JSON but slow down serialization" }

/-- Warning pushed at line 124 when own non-enumerable properties exist;
the message joins their names with a comma. -/
def nonEnumWarning (path : String) (names : List String) : Warning :=
  { wtype := "non-enumerable"
    path := some path
    message := "Non-enumerable properties found at " ++ path ++ ": " ++ String.intercalate ", " names
    impact := .low
    suggestion := "These properties slow down serialization even though they" ++ apostr ++ "re not included" }

/-!
## Field-list helpers (what `Object.keys` and property lookup observe)
-/

/-- The keys of a property list in order (`Object.keys` for the enumerable
list, the filtered `getOwnPropertyNames` result for the non-enumerable
list). -/
def keysF : JFields → List String
  | .nil => []
  | .cons k _ t => k :: keysF t

/-- Number of properties in a list. -/
def lenF : JFields → Nat
  | .nil => 0
  | .cons _ _ t => 1 + lenF t

/-- `keys.some(fun)` over a property list. -/
def anyKeyF (p : String → Bool) : JFields → Bool
  | .nil => false
  | .cons k _ t => p k || anyKeyF p t

/-- Own-property lookup by key (first match wins; a JavaScript object has
each key at most once). -/
def lookupField : JFields → String → Option JVal
  | .nil, _ => none
  | .cons k v t, key => if k == key then some v else lookupField t key

/-- `typeof v === 'function'` for a stored property value. -/
def isCallable : JVal → Bool
  | .vfun => true
  | _ => false

/-- `typeof proto.toJSON === 'function'` for the recorded prototype: only a
custom prototype can expose one (the default prototypes and `null` do not). -/
def protoCustomToJSON : ProtoKind → Bool
  | .custom b => b
  | _ => false

/-- The node-level check `typeof obj.toJSON === 'function'` (line 67):
own properties (enumerable, then non-enumerable) shadow the prototype
chain; an absent own `toJSON` defers to the prototype. -/
def objToJSONCallable (fields nonEnum : JFields) (proto : ProtoKind) : Bool :=
  match lookupField fields "toJSON" with
  | some v => isCallable v
  | none =>
    match lookupField nonEnum "toJSON" with
    | some v => isCallable v
    | none => protoCustomToJSON proto

/-!
## The traversal engine `_validateObject` (lines 52-137)
-/

/-- The warnings the `type === 'object'` branch (lines 66-131) pushes at one
non-array object node before descending into its children.  The source
guard `hasIndexedProps && !Array.isArray(obj)` (line 96) is reached only
after the `Array.isArray` early return of line 59, so its second conjunct
is vacuously true here. -/
def nodeLocalWarnings (fields nonEnum : JFields) (symCount : Nat) (proto : ProtoKind)
    (path : String) : List Warning :=
  (if objToJSONCallable fields nonEnum proto then [toJSONWarning path] else [])
    ++ (if protoCustomToJSON proto then [protoToJSONWarning path] else [])
    ++ (if anyKeyF indexedKeyTest fields then [indexedWarning path] else [])
    ++ (if 0 < symCount then [symbolKeysWarning path] else [])
    ++ (if 0 < lenF nonEnum then [nonEnumWarning path (keysF nonEnum)] else [])

mutual
/-- `_validateObject(obj, path)`: the warnings this call appends to
`this.warnings`, in push order.  `null`/`undefined` return at line 53,
string/number/boolean at line 57, functions fall through every branch;
arrays only recurse element-wise (line 59-64); other objects push their
node-local warnings then recurse into each enumerable own property
(lines 133-135). -/
def validateObject : JVal → String → List Warning
  | .vnull, _ => []
  | .vundef, _ => []
  | .vstr _, _ => []
  | .vnum _, _ => []
  | .vbool _, _ => []
  | .vfun, _ => []
  | .varr elems, path => validateItems elems path 0
  | .vobj fields nonEnum symCount proto, path =>
    nodeLocalWarnings fields nonEnum symCount proto path ++ validateFields fields path
/-- The `obj.forEach((item, idx) => ...)` recursion of lines 60-62, with
the running index made explicit. -/
def validateItems : JVals → String → Nat → List Warning
  | .nil, _, _ => []
  | .cons v rest, path, idx =>
    validateObject v (path ++ "[" ++ toString idx ++ "]") ++ validateItems rest path (idx + 1)
/-- The `keys.forEach(key => ...)` recursion of lines 133-135. -/
def validateFields : JFields → String → List Warning
  | .nil, _ => []
  | .cons k v rest, path =>
    validateObject v (path ++ "." ++ k) ++ validateFields rest path
end

/-!
## `_generateSummary` (lines 139-149) and `validate` (lines 21-50)
-/

/-- `_generateSummary()` as a function of the warning buffer contents. -/
def generateSummary (warnings : List Warning) : String :=
  let highImpact := (warnings.filter fun w => decide (w.impact = Impact.high)).length
  let mediumImpact := (warnings.filter fun w => decide (w.impact = Impact.medium)).length
  let lowImpact := (warnings.filter fun w => decide (w.impact = Impact.low)).length
  if warnings.length = 0 then "Object is fully optimized for V8 fast path"
  else
    "Found " ++ toString warnings.length ++ " issue(s): " ++ toString highImpact
      ++ " high, " ++ toString mediumImpact ++ " medium, " ++ toString lowImpact ++ " low impact"

/-- `replacer !== null` (line 24). -/
def replacerSupplied : ReplacerArg → Bool
  | .rnull => false
  | .rfun => true

/-- `space !== null && space !== undefined` (line 33). -/
def spaceSupplied : SpaceArg → Bool
  | .snull => false
  | .sundef => false
  | .sstr _ => true
  | .snum _ => true

/-- The two call-level warnings pushed at lines 24-40, in push order. -/
def callLevelWarnings (replacer : ReplacerArg) (space : SpaceArg) : List Warning :=
  (if replacerSupplied replacer then [replacerWarning] else [])
    ++ (if spaceSupplied space then [spaceWarning] else [])

/-- The full contents of `this.warnings` when `validate` returns: the
buffer is reset at line 22, the call-level warnings are pushed, then the
traversal starting at path `root` appends its warnings. -/
def computeWarnings (obj : JVal) (replacer : ReplacerArg) (space : SpaceArg) : List Warning :=
  callLevelWarnings replacer space ++ validateObject obj "root"

/-- The object literal returned by `validate` (lines 44-49). -/
structure ValidationResult where
  isOptimized : Bool
  canUseFastPath : Bool
  warnings : List Warning
  summary : String
deriving DecidableEq, Repr

/-- `validate(obj, replacer, space)` (lines 21-50): reset the buffer, run
the call-level checks and the traversal, and package
`this.warnings.length === 0`, the high-impact filter, the buffer and the
summary. -/
def validate (obj : JVal) (replacer : ReplacerArg) (space : SpaceArg) : ValidationResult :=
  let ws := computeWarnings obj replacer space
  { isOptimized := ws.length == 0
    canUseFastPath := (ws.filter fun w => decide (w.impact = Impact.high)).length == 0
    warnings := ws
    summary := generateSummary ws }

/-!
## `optimize` (lines 156-177)
-/

mutual
/-- `optimize(obj)`: `null` and non-objects (undefined, strings, numbers,
booleans, functions) are returned as-is (line 157); arrays are mapped
element-wise (line 159-161); any other object is rebuilt as a fresh plain
object literal — so with no symbol keys, no non-enumerable properties and
the default `Object.prototype` — keeping each enumerable own key that
fails the indexed-key test, with its value optimized recursively
(lines 163-176).  The `console.warn` diagnostic of line 169 is an output
side effect the claims do not touch. -/
def optimize : JVal → JVal
  | .vnull => .vnull
  | .vundef => .vundef
  | .vstr s => .vstr s
  | .vnum n => .vnum n
  | .vbool b => .vbool b
  | .vfun => .vfun
  | .varr elems => .varr (optimizeItems elems)
  | .vobj fields _nonEnum _symCount _proto => .vobj (optimizeFields fields) .nil 0 .objectProto
/-- `obj.map(item => this.optimize(item))` (line 160). -/
def optimizeItems : JVals → JVals
  | .nil => .nil
  | .cons v rest => .cons (optimize v) (optimizeItems rest)
/-- The `keys.forEach` loop of lines 166-174: skip keys passing the
indexed-key test, copy-and-recurse on the rest. -/
def optimizeFields : JFields → JFields
  | .nil => .nil
  | .cons k v rest =>
    if indexedKeyTest k then optimizeFields rest
    else .cons k (optimize v) (optimizeFields rest)
end

/-!
## `stringify` (lines 186-195)
-/

/-- The object literal returned by `stringify` on success (lines 190-194). -/
structure StringifyResult where
  json : String
  validation : ValidationResult
  optimized : Bool
deriving DecidableEq, Repr

/-- Modelled from the spec: the platform serializer `JSON.stringify` is not
part of this repository; per spec section 6 it is an opaque trusted black
box that, given a tree, replacer and space, either returns the serialized
text or throws (e.g. on a cyclic structure).  We therefore model it as an
arbitrary function into `Except`, passed as a parameter. -/
abbrev PlatformSerializer : Type :=
  JVal → ReplacerArg → SpaceArg → Except String String

/-- `stringify(obj, replacer, space)`: run `validate` first, then call the
platform serializer on the original, unmodified `obj`, `replacer` and
`space` (the optimizer is never invoked here); a serializer failure is not
caught and propagates as-is, so no partial result is produced. -/
def stringify (serializer : PlatformSerializer) (obj : JVal)
    (replacer : ReplacerArg) (space : SpaceArg) : Except String StringifyResult :=
  let validation := validate obj replacer space
  match serializer obj replacer space with
  | .error e => .error e
  | .ok json =>
    .ok { json := json, validation := validation, optimized := validation.isOptimized }

/-!
## Instance state and warning-buffer identity (for the snapshot claim)

`this.warnings` holds a reference to a mutable array.  `validate` begins
with `this.warnings = []` (line 22), which allocates a *fresh* array and
repoints the field at it; all pushes of the call go to that fresh array,
and the returned result stores the same reference (line 47).  We model the
mutable arrays as cells of a store (allocation never reuses an index) so
that reference identity and later mutation are expressible.
-/

/-- The mutable array store: cell `i` holds the current contents of the
`i`-th allocated warnings array. -/
abbrev WarningStore : Type := List (List Warning)

/-- The `JSONOptimizer` instance state: the constructor (lines 9-12) sets
`this.warnings` to a fresh empty array and `this.strictMode` to
`options.strict || false` (read by nothing else in the source). -/
structure OptimizerState where
  warningsRef : Nat
  strictMode : Bool
deriving DecidableEq, Repr

/-- The result object of `validate` with the `warnings` field kept as the
array reference the source actually stores (line 47). -/
structure ValidationResultRef where
  isOptimized : Bool
  canUseFastPath : Bool
  warningsRef : Nat
  summary : String
deriving DecidableEq, Repr

/-- `validate` at the store level: line 22 allocates a fresh cell and
repoints `this.warnings`; the pushes of the call fill exactly that cell,
whose final contents are `computeWarnings obj replacer space`; the result
carries the same cell reference. -/
def validateRef (store : WarningStore) (st : OptimizerState) (obj : JVal)
    (replacer : ReplacerArg) (space : SpaceArg) :
    WarningStore × OptimizerState × ValidationResultRef :=
  let ws := computeWarnings obj replacer space
  let ref := store.length
  (store ++ [ws],
   { st with warningsRef := ref },
   { isOptimized := ws.length == 0
     canUseFastPath := (ws.filter fun w => decide (w.impact = Impact.high)).length == 0
     warningsRef := ref
     summary := generateSummary ws })

/-!
## Size and shape measures used by the resource and optimizer claims
-/

mutual
/-- Number of nodes of a value tree. -/
def sizeJ : JVal → Nat
  | .vnull => 1
  | .vundef => 1
  | .vstr _ => 1
  | .vnum _ => 1
  | .vbool _ => 1
  | .vfun => 1
  | .varr elems => 1 + sizeJs elems
  | .vobj fields _ _ _ => 1 + sizeJf fields
/-- Total node count of an element list. -/
def sizeJs : JVals → Nat
  | .nil => 0
  | .cons h t => sizeJ h + sizeJs t
/-- Total node count of the values of a property list. -/
def sizeJf : JFields → Nat
  | .nil => 0
  | .cons _ v t => sizeJ v + sizeJf t
end

/-- The broad shape of a value: keyed mapping, ordered sequence, or
primitive/leaf. -/
inductive BroadShape where
  | mapping
  | sequence
  | primitive
deriving DecidableEq, Repr

/-- Broad shape classifier (object / array / everything else). -/
def broadShape : JVal → BroadShape
  | .vobj _ _ _ _ => .mapping
  | .varr _ => .sequence
  | _ => .primitive

mutual
/-- A tree is free of canonical-integer-style keys when no descended
mapping has an own enumerable key passing the indexed-key test. -/
def freeOfIndexedKeys : JVal → Bool
  | .vnull => true
  | .vundef => true
  | .vstr _ => true
  | .vnum _ => true
  | .vbool _ => true
  | .vfun => true
  | .varr elems => freeOfIndexedKeysItems elems
  | .vobj fields _ _ _ => !anyKeyF indexedKeyTest fields && freeOfIndexedKeysFields fields
/-- Element-wise version of `freeOfIndexedKeys`. -/
def freeOfIndexedKeysItems : JVals → Bool
  | .nil => true
  | .cons h t => freeOfIndexedKeys h && freeOfIndexedKeysItems t
/-- Value-wise version of `freeOfIndexedKeys` over a property list. -/
def freeOfIndexedKeysFields : JFields → Bool
  | .nil => true
  | .cons _ v t => freeOfIndexedKeys v && freeOfIndexedKeysFields t
end

/-- Is a property list empty? -/
def isNilF : JFields → Bool
  | .nil => true
  | .cons _ _ _ => false

/-- Is the recorded prototype the default `Object.prototype`? -/
def isObjectProto : ProtoKind → Bool
  | .objectProto => true
  | _ => false

mutual
/-- The normal form `optimize` produces: every descended mapping is a
fresh plain object — no key passing the indexed-key test, no
non-enumerable properties, no symbol keys, default prototype. -/
def optimizedForm : JVal → Bool
  | .vnull => true
  | .vundef => true
  | .vstr _ => true
  | .vnum _ => true
  | .vbool _ => true
  | .vfun => true
  | .varr elems => optimizedFormItems elems
  | .vobj fields nonEnum symCount proto =>
    !anyKeyF indexedKeyTest fields
      && isNilF nonEnum && (symCount == 0) && isObjectProto proto
      && optimizedFormFields fields
/-- Element-wise version of `optimizedForm`. -/
def optimizedFormItems : JVals → Bool
  | .nil => true
  | .cons h t => optimizedForm h && optimizedFormItems t
/-- Value-wise version of `optimizedForm` over a property list. -/
def optimizedFormFields : JFields → Bool
  | .nil => true
  | .cons _ v t => optimizedForm v && optimizedFormFields t
end

/-!
## Concrete values and auxiliary definitions used by the claim statements
-/

/-- An object whose only issue is the indexed key `0`: it draws exactly one
medium-impact warning, so it can use the fast path without being fully
optimized. -/
def mediumOnlyObj : JVal := .vobj (.cons "0" (.vnum 1) .nil) .nil 0 .objectProto

/-- Does a warning carry one of the two call-level types? -/
def isCallLevelType (w : Warning) : Bool :=
  w.wtype == "replacer" || w.wtype == "space"

/-- A serializer that reports whether the tree it receives still has the
indexed key `0` at the root — used to observe that `stringify` hands the
serializer the original tree, not the optimized one. -/
def probeSerializer : PlatformSerializer := fun v _ _ =>
  match v with
  | .vobj (.cons "0" _ _) _ _ _ => .ok "saw the indexed key"
  | _ => .ok "no indexed key"

/-- Modelled from the claim wording, for comparison with the source test:
a "canonical non-negative integer index string" is nonempty, consists of
decimal digits only, and has no leading zero unless it is exactly `0`. -/
def claimIntegerIndexKey (s : String) : Bool :=
  match s.toList with
  | [] => false
  | ['0'] => true
  | c :: cs => (c != '0') && (c :: cs).all Char.isDigit

/-- Non-enumerable property list of an object node (empty otherwise). -/
def objNonEnumOf : JVal → JFields
  | .vobj _ ne _ _ => ne
  | _ => .nil

/-- Own symbol-key count of an object node (zero otherwise). -/
def objSymCountOf : JVal → Nat
  | .vobj _ _ sym _ => sym
  | _ => 0

/-- Recorded prototype of an object node (default otherwise). -/
def objProtoOf : JVal → ProtoKind
  | .vobj _ _ _ proto => proto
  | _ => .objectProto

/-- Does a node expose a callable `toJSON` (own or inherited), i.e. carry
a custom serialization hook the validator's rule 3 would flag? -/
def hasToJSONHook : JVal → Bool
  | .vobj f ne _ proto => objToJSONCallable f ne proto
  | _ => false

/-- The object refuting claim C3: a mapping with one non-enumerable
property, one symbol key, and a custom prototype exposing `toJSON`. -/
def hookedObj : JVal := .vobj .nil (.cons "hidden" (.vnum 1) .nil) 1 (.custom true)

/-!
## Helper lemmas
-/

/-- With exactly three impact tiers, every warning list's length is the
sum of its per-tier counts. -/
theorem length_eq_impact_counts (ws : List Warning) :
    ws.length = (ws.filter fun w => decide (w.impact = Impact.high)).length
      + (ws.filter fun w => decide (w.impact = Impact.medium)).length
      + (ws.filter fun w => decide (w.impact = Impact.low)).length := by
  induction ws with
  | nil => rfl
  | cons w t ih =>
    cases h : w.impact <;> simp [List.filter_cons, h, ih] <;> omega

/-- At most five warnings are pushed locally at one object node. -/
theorem nodeLocalWarnings_length_le (f ne : JFields) (sym : Nat) (proto : ProtoKind) (p : String) :
    (nodeLocalWarnings f ne sym proto p).length ≤ 5 := by
  unfold nodeLocalWarnings
  split_ifs <;> simp

mutual
/-- The traversal emits at most five warnings per visited node. -/
theorem validateObject_length_le : ∀ (v : JVal) (p : String),
    (validateObject v p).length ≤ 5 * sizeJ v
  | .vnull, _ => by simp [validateObject, sizeJ]
  | .vundef, _ => by simp [validateObject, sizeJ]
  | .vstr _, _ => by simp [validateObject, sizeJ]
  | .vnum _, _ => by simp [validateObject, sizeJ]
  | .vbool _, _ => by simp [validateObject, sizeJ]
  | .vfun, _ => by simp [validateObject, sizeJ]
  | .varr elems, p => by
    have h := validateItems_length_le elems p 0
    simp only [validateObject, sizeJ]
    omega
  | .vobj f ne sym proto, p => by
    have h1 := nodeLocalWarnings_length_le f ne sym proto p
    have h2 := validateFields_length_le f p
    simp only [validateObject, sizeJ, List.length_append]
    omega
/-- Element-list version of the warning-count bound. -/
theorem validateItems_length_le : ∀ (l : JVals) (p : String) (i : Nat),
    (validateItems l p i).length ≤ 5 * sizeJs l
  | .nil, _, _ => by simp [validateItems, sizeJs]
  | .cons h t, p, i => by
    have h1 := validateObject_length_le h (p ++ "[" ++ toString i ++ "]")
    have h2 := validateItems_length_le t p (i + 1)
    simp only [validateItems, sizeJs, List.length_append]
    omega
/-- Property-list version of the warning-count bound. -/
theorem validateFields_length_le : ∀ (l : JFields) (p : String),
    (validateFields l p).length ≤ 5 * sizeJf l
  | .nil, _ => by simp [validateFields, sizeJf]
  | .cons k v t, p => by
    have h1 := validateObject_length_le v (p ++ "." ++ k)
    have h2 := validateFields_length_le t p
    simp only [validateFields, sizeJf, List.length_append]
    omega
end

/-- Every warning pushed locally at an object node has one of the five
per-node types and carries that node's path. -/
theorem nodeLocalWarnings_mem (f ne : JFields) (sym : Nat) (proto : ProtoKind) (p : String) :
    ∀ w ∈ nodeLocalWarnings f ne sym proto p,
      (w.wtype = "toJSON" ∨ w.wtype = "prototype-toJSON" ∨ w.wtype = "indexed-properties"
        ∨ w.wtype = "symbol-keys" ∨ w.wtype = "non-enumerable")
      ∧ w.path = some p := by
  intro w hw
  unfold nodeLocalWarnings at hw
  simp only [List.mem_append] at hw
  rcases hw with ((((h | h) | h) | h) | h) <;> split at h <;>
    simp_all [toJSONWarning, protoToJSONWarning, indexedWarning, symbolKeysWarning,
      nonEnumWarning]

mutual
/-- Every warning the traversal emits below a call at path `p` has one of
the five per-node types and a path at least as long as `p`. -/
theorem validateObject_mem : ∀ (v : JVal) (p : String), ∀ w ∈ validateObject v p,
    (w.wtype = "toJSON" ∨ w.wtype = "prototype-toJSON" ∨ w.wtype = "indexed-properties"
      ∨ w.wtype = "symbol-keys" ∨ w.wtype = "non-enumerable")
    ∧ ∃ q, w.path = some q ∧ p.length ≤ q.length
  | .vnull, p => by simp [validateObject]
  | .vundef, p => by simp [validateObject]
  | .vstr _, p => by simp [validateObject]
  | .vnum _, p => by simp [validateObject]
  | .vbool _, p => by simp [validateObject]
  | .vfun, p => by simp [validateObject]
  | .varr elems, p => fun w hw => by
    simp only [validateObject] at hw
    obtain ⟨ht, q, hq, hlt⟩ := validateItems_mem elems p 0 w hw
    exact ⟨ht, q, hq, le_of_lt hlt⟩
  | .vobj f ne sym proto, p => fun w hw => by
    simp only [validateObject, List.mem_append] at hw
    rcases hw with h | h
    · have hm := nodeLocalWarnings_mem f ne sym proto p w h
      exact ⟨hm.1, p, hm.2, le_refl _⟩
    · obtain ⟨ht, q, hq, hlt⟩ := validateFields_mem f p w h
      exact ⟨ht, q, hq, le_of_lt hlt⟩
/-- Warnings from element recursion carry strictly longer paths than the
array's own path. -/
theorem validateItems_mem : ∀ (l : JVals) (p : String) (i : Nat), ∀ w ∈ validateItems l p i,
    (w.wtype = "toJSON" ∨ w.wtype = "prototype-toJSON" ∨ w.wtype = "indexed-properties"
      ∨ w.wtype = "symbol-keys" ∨ w.wtype = "non-enumerable")
    ∧ ∃ q, w.path = some q ∧ p.length < q.length
  | .nil, p, i => by simp [validateItems]
  | .cons h t, p, i => fun w hw => by
    simp only [validateItems, List.mem_append] at hw
    rcases hw with hmem | hmem
    · obtain ⟨ht, q, hq, hle⟩ := validateObject_mem h (p ++ "[" ++ toString i ++ "]") w hmem
      refine ⟨ht, q, hq, ?_⟩
      have h1 : ("[" : String).length = 1 := rfl
      have h2 : ("]" : String).length = 1 := rfl
      simp only [String.length_append, h1, h2] at hle
      omega
    · exact validateItems_mem t p (i + 1) w hmem
/-- Warnings from property recursion carry strictly longer paths than the
object's own path. -/
theorem validateFields_mem : ∀ (l : JFields) (p : String), ∀ w ∈ validateFields l p,
    (w.wtype = "toJSON" ∨ w.wtype = "prototype-toJSON" ∨ w.wtype = "indexed-properties"
      ∨ w.wtype = "symbol-keys" ∨ w.wtype = "non-enumerable")
    ∧ ∃ q, w.path = some q ∧ p.length < q.length
  | .nil, p => by simp [validateFields]
  | .cons k v t, p => fun w hw => by
    simp only [validateFields, List.mem_append] at hw
    rcases hw with hmem | hmem
    · obtain ⟨ht, q, hq, hle⟩ := validateObject_mem v (p ++ "." ++ k) w hmem
      refine ⟨ht, q, hq, ?_⟩
      have h1 : ("." : String).length = 1 := rfl
      simp only [String.length_append, h1] at hle
      omega
    · exact validateFields_mem t p w hmem
end

/-- The traversal itself never emits a call-level (replacer/space)
warning. -/
theorem validateObject_no_call_level (obj : JVal) (p : String) :
    (validateObject obj p).countP isCallLevelType = 0 := by
  rw [List.countP_eq_zero]
  intro w hw
  rcases (validateObject_mem obj p w hw).1 with h | h | h | h | h <;>
    simp [isCallLevelType, h]

/-- The node-local warnings contain the indexed-properties warning at the
node's own path exactly when some own enumerable key passes the
indexed-key test, and then exactly once. -/
theorem nodeLocalWarnings_indexed_countP (f ne : JFields) (sym : Nat) (proto : ProtoKind)
    (p : String) :
    ((nodeLocalWarnings f ne sym proto p).countP
        fun w => w.wtype == "indexed-properties" && w.path == some p)
      = if anyKeyF indexedKeyTest f then 1 else 0 := by
  unfold nodeLocalWarnings
  split_ifs <;>
    simp_all [List.countP_append, List.countP_cons, toJSONWarning, protoToJSONWarning,
      indexedWarning, symbolKeysWarning, nonEnumWarning]

/-- Property recursion contributes no indexed-properties warning at the
parent's own path (children's paths are strictly longer). -/
theorem validateFields_no_indexed_at_path (f : JFields) (p : String) :
    ((validateFields f p).countP
      fun w => w.wtype == "indexed-properties" && w.path == some p) = 0 := by
  rw [List.countP_eq_zero]
  intro w hw
  obtain ⟨_, q, hq, hlt⟩ := validateFields_mem f p w hw
  have hne : (some q == some p) = false :=
    beq_eq_false_iff_ne.mpr (by simp; intro hqp; subst hqp; omega)
  simp [hq, hne]

/-- Element recursion contributes no indexed-properties warning at the
array's own path. -/
theorem validateItems_no_indexed_at_path (l : JVals) (p : String) (i : Nat) :
    ((validateItems l p i).countP
      fun w => w.wtype == "indexed-properties" && w.path == some p) = 0 := by
  rw [List.countP_eq_zero]
  intro w hw
  obtain ⟨_, q, hq, hlt⟩ := validateItems_mem l p i w hw
  have hne : (some q == some p) = false :=
    beq_eq_false_iff_ne.mpr (by simp; intro hqp; subst hqp; omega)
  simp [hq, hne]

/-- The keys kept by the optimizer's rebuild are exactly the own
enumerable keys failing the indexed-key test, in order. -/
theorem keysF_optimizeFields : ∀ f : JFields,
    keysF (optimizeFields f) = (keysF f).filter fun k => !indexedKeyTest k
  | .nil => rfl
  | .cons k v rest => by
    by_cases h : indexedKeyTest k <;>
      simp [optimizeFields, keysF, List.filter_cons, h, keysF_optimizeFields rest]

/-- No key passing the indexed-key test survives the optimizer's rebuild. -/
theorem optimizeFields_no_indexed : ∀ f : JFields,
    anyKeyF indexedKeyTest (optimizeFields f) = false
  | .nil => rfl
  | .cons k v rest => by
    by_cases h : indexedKeyTest k <;>
      simp [optimizeFields, anyKeyF, h, optimizeFields_no_indexed rest]

mutual
/-- `optimize` outputs trees in the optimized normal form: every descended
mapping is plain, with indexed keys pruned. -/
theorem optimize_optimizedForm : ∀ v : JVal, optimizedForm (optimize v) = true
  | .vnull => rfl
  | .vundef => rfl
  | .vstr _ => rfl
  | .vnum _ => rfl
  | .vbool _ => rfl
  | .vfun => rfl
  | .varr elems => by
    simp [optimize, optimizedForm, optimizeItems_optimizedForm elems]
  | .vobj f ne sym proto => by
    simp [optimize, optimizedForm, isNilF, isObjectProto,
      optimizeFields_no_indexed f, optimizeFields_optimizedForm f]
/-- Element-list version of `optimize_optimizedForm`. -/
theorem optimizeItems_optimizedForm : ∀ l : JVals,
    optimizedFormItems (optimizeItems l) = true
  | .nil => rfl
  | .cons h t => by
    simp [optimizeItems, optimizedFormItems, optimize_optimizedForm h,
      optimizeItems_optimizedForm t]
/-- Property-list version of `optimize_optimizedForm`. -/
theorem optimizeFields_optimizedForm : ∀ f : JFields,
    optimizedFormFields (optimizeFields f) = true
  | .nil => rfl
  | .cons k v rest => by
    by_cases h : indexedKeyTest k <;>
      simp [optimizeFields, optimizedFormFields, h, optimize_optimizedForm v,
        optimizeFields_optimizedForm rest]
end

mutual
/-- `optimize` is the identity on trees already in the optimized normal
form. -/
theorem optimize_fix : ∀ v : JVal, optimizedForm v = true → optimize v = v
  | .vnull, _ => rfl
  | .vundef, _ => rfl
  | .vstr _, _ => rfl
  | .vnum _, _ => rfl
  | .vbool _, _ => rfl
  | .vfun, _ => rfl
  | .varr elems, h => by
    simp only [optimizedForm] at h
    simp [optimize, optimizeItems_fix elems h]
  | .vobj f ne sym proto, h => by
    simp only [optimizedForm, Bool.and_eq_true, Bool.not_eq_true'] at h
    obtain ⟨⟨⟨⟨h1, h2⟩, h3⟩, h4⟩, h5⟩ := h
    cases ne with
    | cons k v t => simp [isNilF] at h2
    | nil =>
      cases proto <;> simp [isObjectProto] at h4
      have hsym : sym = 0 := by simpa using h3
      subst hsym
      simp [optimize, optimizeFields_fix f h1 h5]
/-- Element-list version of `optimize_fix`. -/
theorem optimizeItems_fix : ∀ l : JVals, optimizedFormItems l = true → optimizeItems l = l
  | .nil, _ => rfl
  | .cons h t, hh => by
    simp only [optimizedFormItems, Bool.and_eq_true] at hh
    simp [optimizeItems, optimize_fix h hh.1, optimizeItems_fix t hh.2]
/-- Property-list version of `optimize_fix`. -/
theorem optimizeFields_fix : ∀ f : JFields,
    anyKeyF indexedKeyTest f = false → optimizedFormFields f = true → optimizeFields f = f
  | .nil, _, _ => rfl
  | .cons k v rest, hk, hform => by
    simp only [anyKeyF, Bool.or_eq_false_iff] at hk
    simp only [optimizedFormFields, Bool.and_eq_true] at hform
    simp [optimizeFields, hk.1, optimize_fix v hform.1, optimizeFields_fix rest hk.2 hform.2]
end

/-!
## Claim theorems
-/

/-- Claim C1: in every validation result, `isOptimized` is true iff the
warning list is empty, `canUseFastPath` is true iff no warning has high
impact, hence `isOptimized` implies `canUseFastPath`; the reverse
implication fails, witnessed by an object whose only warning is medium. -/
theorem validate_flag_semantics (obj : JVal) (replacer : ReplacerArg) (space : SpaceArg) :
    ((validate obj replacer space).isOptimized = true ↔ (validate obj replacer space).warnings = [])
    ∧ ((validate obj replacer space).canUseFastPath = true ↔
        ∀ w ∈ (validate obj replacer space).warnings, w.impact ≠ Impact.high)
    ∧ ((validate obj replacer space).isOptimized = true →
        (validate obj replacer space).canUseFastPath = true)
    ∧ ((validate mediumOnlyObj .rnull .snull).canUseFastPath = true
        ∧ (validate mediumOnlyObj .rnull .snull).isOptimized = false) := by
  have hws : (validate obj replacer space).warnings = computeWarnings obj replacer space := rfl
  have hopt : (validate obj replacer space).isOptimized
      = ((computeWarnings obj replacer space).length == 0) := rfl
  have hfast : (validate obj replacer space).canUseFastPath
      = (((computeWarnings obj replacer space).filter
          fun w => decide (w.impact = Impact.high)).length == 0) := rfl
  have h1 : (validate obj replacer space).isOptimized = true
      ↔ (validate obj replacer space).warnings = [] := by
    rw [hopt, hws]; simp [List.length_eq_zero]
  have h2 : (validate obj replacer space).canUseFastPath = true
      ↔ ∀ w ∈ (validate obj replacer space).warnings, w.impact ≠ Impact.high := by
    rw [hfast, hws]; simp [List.length_eq_zero, List.filter_eq_nil_iff]
  refine ⟨h1, h2, ?_, by decide⟩
  intro h
  rw [h2]
  have := h1.mp h
  rw [this]
  simp

/-- Witness for claim C1: the reverse implication direction is non-vacuous —
the concrete object with one medium warning can use the fast path while
not being fully optimized. -/
theorem validate_flag_semantics_witness :
    (validate mediumOnlyObj .rnull .snull).canUseFastPath = true
    ∧ (validate mediumOnlyObj .rnull .snull).isOptimized = false :=
  (validate_flag_semantics mediumOnlyObj .rnull .snull).2.2.2

/-- Claim C2 (counterexample): at the keyed mapping with single key `0.5`
the code emits the medium indexed-properties warning (the key passes the
source's numeric round-trip test), yet `0.5` is not a canonical
non-negative integer index string, so the flagged keys are not precisely
the canonical integer index strings. -/
theorem indexed_warning_counterexample :
    indexedKeyTest "0.5" = true
    ∧ claimIntegerIndexKey "0.5" = false
    ∧ ((validateObject (.vobj (.cons "0.5" (.vnum 1) .nil) .nil 0 .objectProto) "root").countP
        fun w => w.wtype == "indexed-properties" && w.path == some "root") = 1
    ∧ anyKeyF claimIntegerIndexKey (.cons "0.5" (.vnum 1) .nil) = false := by decide

/-- Claim C2 (amended): a non-array object node gets the medium
indexed-properties warning at its own path iff some own enumerable key
passes the source's round-trip test (`Number` and back to `String`
reproduces the key, with a non-negative number), and then exactly once;
an array node never gets one at its own path; the test accepts the
canonical integer index strings `0` and `42` and rejects `00` and `1e2`,
but also accepts non-integer numeric strings such as `0.5`. -/
theorem indexed_warning_characterization :
    (∀ (f ne : JFields) (sym : Nat) (proto : ProtoKind) (p : String),
      ((validateObject (.vobj f ne sym proto) p).countP
          fun w => w.wtype == "indexed-properties" && w.path == some p)
        = if anyKeyF indexedKeyTest f then 1 else 0)
    ∧ (∀ (elems : JVals) (p : String),
        ((validateObject (.varr elems) p).countP
          fun w => w.wtype == "indexed-properties" && w.path == some p) = 0)
    ∧ indexedKeyTest "0" = true ∧ indexedKeyTest "42" = true
    ∧ indexedKeyTest "00" = false ∧ indexedKeyTest "1e2" = false
    ∧ indexedKeyTest "0.5" = true
    ∧ ∀ p, (indexedWarning p).impact = Impact.medium := by
  refine ⟨?_, ?_, by decide, by decide, by decide, by decide, by decide, fun p => rfl⟩
  · intro f ne sym proto p
    show ((nodeLocalWarnings f ne sym proto p ++ validateFields f p).countP _)
      = if anyKeyF indexedKeyTest f then 1 else 0
    rw [List.countP_append, nodeLocalWarnings_indexed_countP, validateFields_no_indexed_at_path]
    omega
  · intro elems p
    show ((validateItems elems p 0).countP _) = 0
    exact validateItems_no_indexed_at_path elems p 0

/-- Claim C3 (counterexample): `optimize` rebuilds the mapping as a fresh
plain object, so the input's serialization hook, non-enumerable property
and symbol key are all absent from the output mapping. -/
theorem optimize_strips_counterexample :
    hasToJSONHook hookedObj = true
    ∧ hasToJSONHook (optimize hookedObj) = false
    ∧ lenF (objNonEnumOf hookedObj) = 1
    ∧ lenF (objNonEnumOf (optimize hookedObj)) = 0
    ∧ objSymCountOf hookedObj = 1
    ∧ objSymCountOf (optimize hookedObj) = 0
    ∧ protoCustomToJSON (objProtoOf hookedObj) = true
    ∧ protoCustomToJSON (objProtoOf (optimize hookedObj)) = false
    ∧ broadShape (optimize hookedObj) = broadShape hookedObj := by decide

/-- Claim C3 (amended): `optimize` never throws (it is a total function),
preserves the broad shape of its input, rebuilds every descended mapping
as a fresh plain object keeping exactly the own enumerable keys that fail
the indexed-key test (values recursively optimized), and therefore its
output is always in the optimized normal form — in particular custom
prototypes (with their hooks), non-enumerable properties and symbol keys
are dropped, not preserved. -/
theorem optimize_rebuild_contract :
    (∀ v : JVal, broadShape (optimize v) = broadShape v)
    ∧ (∀ (f ne : JFields) (sym : Nat) (proto : ProtoKind),
        optimize (.vobj f ne sym proto) = .vobj (optimizeFields f) .nil 0 .objectProto)
    ∧ (∀ f : JFields, keysF (optimizeFields f) = (keysF f).filter fun k => !indexedKeyTest k)
    ∧ (∀ v : JVal, optimizedForm (optimize v) = true) := by
  refine ⟨?_, fun f ne sym proto => rfl, keysF_optimizeFields, optimize_optimizedForm⟩
  intro v
  cases v <;> rfl

/-- Claim C4: the warnings a returned result exposes are fixed at return
time: the first call fills a fresh cell with exactly the computed warning
list, a second `validate` call on the same instance allocates a different
cell (the line-22 reset repoints `this.warnings`, it never rewrites the
old array), so the first result's cell still holds the same list
afterwards. -/
theorem validate_snapshot_independence (store : WarningStore) (st : OptimizerState)
    (obj1 : JVal) (r1 : ReplacerArg) (s1 : SpaceArg)
    (obj2 : JVal) (r2 : ReplacerArg) (s2 : SpaceArg) :
    ((validateRef store st obj1 r1 s1).1)[((validateRef store st obj1 r1 s1).2.2).warningsRef]?
        = some (computeWarnings obj1 r1 s1)
    ∧ ((validateRef (validateRef store st obj1 r1 s1).1 (validateRef store st obj1 r1 s1).2.1
          obj2 r2 s2).1)[((validateRef store st obj1 r1 s1).2.2).warningsRef]?
        = some (computeWarnings obj1 r1 s1)
    ∧ ((validateRef (validateRef store st obj1 r1 s1).1 (validateRef store st obj1 r1 s1).2.1
          obj2 r2 s2).2.2).warningsRef
        ≠ ((validateRef store st obj1 r1 s1).2.2).warningsRef := by
  have hcell : (store ++ [computeWarnings obj1 r1 s1])[store.length]?
      = some (computeWarnings obj1 r1 s1) :=
    List.getElem?_concat_length store (computeWarnings obj1 r1 s1)
  refine ⟨hcell, ?_, ?_⟩
  · show ((store ++ [computeWarnings obj1 r1 s1]) ++ [computeWarnings obj2 r2 s2])[store.length]?
        = some (computeWarnings obj1 r1 s1)
    rw [List.getElem?_append_left (by simp)]
    exact hcell
  · show (store ++ [computeWarnings obj1 r1 s1]).length ≠ store.length
    simp

/-- Claim C5: the warning list is the call-level block followed by the
per-node block; a supplied replacer contributes exactly one warning of
type `replacer` (high impact), a supplied space value exactly one of type
`space` (high impact), and the per-node block contains neither type, so
both call-level warnings precede every per-node warning. -/
theorem validate_call_level_block (obj : JVal) (r : ReplacerArg) (s : SpaceArg) :
    (validate obj r s).warnings = callLevelWarnings r s ++ validateObject obj "root"
    ∧ (replacerSupplied r = true →
        ((validate obj r s).warnings.countP fun w => w.wtype == "replacer") = 1)
    ∧ (replacerSupplied r = false →
        ((validate obj r s).warnings.countP fun w => w.wtype == "replacer") = 0)
    ∧ (spaceSupplied s = true →
        ((validate obj r s).warnings.countP fun w => w.wtype == "space") = 1)
    ∧ (spaceSupplied s = false →
        ((validate obj r s).warnings.countP fun w => w.wtype == "space") = 0)
    ∧ (validateObject obj "root").countP isCallLevelType = 0
    ∧ replacerWarning.impact = Impact.high ∧ replacerWarning.wtype = "replacer"
    ∧ spaceWarning.impact = Impact.high ∧ spaceWarning.wtype = "space" := by
  have hnodeR : (validateObject obj "root").countP (fun w => w.wtype == "replacer") = 0 := by
    rw [List.countP_eq_zero]
    intro w hw
    rcases (validateObject_mem obj "root" w hw).1 with h | h | h | h | h <;> simp [h]
  have hnodeS : (validateObject obj "root").countP (fun w => w.wtype == "space") = 0 := by
    rw [List.countP_eq_zero]
    intro w hw
    rcases (validateObject_mem obj "root" w hw).1 with h | h | h | h | h <;> simp [h]
  have hdecomp : (validate obj r s).warnings
      = callLevelWarnings r s ++ validateObject obj "root" := rfl
  refine ⟨hdecomp, ?_, ?_, ?_, ?_, validateObject_no_call_level obj "root", rfl, rfl, rfl, rfl⟩ <;>
    · intro h
      rw [hdecomp, List.countP_append]
      cases r <;> cases s <;>
        simp_all [callLevelWarnings, replacerSupplied, spaceSupplied,
          replacerWarning, spaceWarning, hnodeR, hnodeS]

/-- Witness for claim C5: with `null` root, a replacer and a numeric
space, each call-level warning type occurs exactly once. -/
theorem validate_call_level_block_witness :
    ((validate .vnull .rfun (.snum 2)).warnings.countP fun w => w.wtype == "replacer") = 1
    ∧ ((validate .vnull .rfun (.snum 2)).warnings.countP fun w => w.wtype == "space") = 1 :=
  ⟨(validate_call_level_block .vnull .rfun (.snum 2)).2.1 rfl,
   (validate_call_level_block .vnull .rfun (.snum 2)).2.2.2.1 rfl⟩

/-- Claim C6: the summary is the same pure function of the warning list in
every result; the empty list yields the fixed fully-optimized message; any
list with 2 high, 1 medium and 0 low impact warnings yields exactly the
documented breakdown string. -/
theorem summary_pure_and_breakdown :
    (∀ (obj : JVal) (r : ReplacerArg) (s : SpaceArg),
      (validate obj r s).summary = generateSummary (validate obj r s).warnings)
    ∧ generateSummary [] = "Object is fully optimized for V8 fast path"
    ∧ ∀ ws : List Warning,
        (ws.filter fun w => decide (w.impact = Impact.high)).length = 2 →
        (ws.filter fun w => decide (w.impact = Impact.medium)).length = 1 →
        (ws.filter fun w => decide (w.impact = Impact.low)).length = 0 →
        generateSummary ws = "Found 3 issue(s): 2 high, 1 medium, 0 low impact" := by
  refine ⟨fun obj r s => rfl, rfl, ?_⟩
  intro ws hh hm hl
  have hlen : ws.length = 3 := by rw [length_eq_impact_counts ws, hh, hm, hl]
  simp [generateSummary, hlen, hh, hm, hl]
  rfl

/-- Witness for claim C6 at a concrete list with 2 high, 1 medium, 0 low
impact warnings. -/
theorem summary_pure_and_breakdown_witness :
    generateSummary [replacerWarning, spaceWarning, indexedWarning "root"]
      = "Found 3 issue(s): 2 high, 1 medium, 0 low impact" :=
  summary_pure_and_breakdown.2.2 [replacerWarning, spaceWarning, indexedWarning "root"]
    (by decide) (by decide) (by decide)

/-- Claim C7: `optimize` is idempotent on trees free of indexed-style keys
(the proof route — the output is always in optimized normal form and
`optimize` fixes that form — holds without even using the hypothesis). -/
theorem optimize_idempotent_on_clean (x : JVal) (_h : freeOfIndexedKeys x = true) :
    optimize (optimize x) = optimize x :=
  optimize_fix (optimize x) (optimize_optimizedForm x)

/-- Witness for claim C7 at a concrete indexed-key-free object. -/
theorem optimize_idempotent_on_clean_witness :
    freeOfIndexedKeys (.vobj (.cons "a" (.vnum 1) .nil) .nil 0 .objectProto) = true
    ∧ optimize (optimize (.vobj (.cons "a" (.vnum 1) .nil) .nil 0 .objectProto))
        = optimize (.vobj (.cons "a" (.vnum 1) .nil) .nil 0 .objectProto) :=
  ⟨by decide,
   optimize_idempotent_on_clean (.vobj (.cons "a" (.vnum 1) .nil) .nil 0 .objectProto)
     (by decide)⟩

/-- Claim C8: the traversal is a total function of the (finite, acyclic)
input tree — every leaf shape, including `null` and `undefined` roots,
falls through with no warning — and `validate` always returns a result,
with warning count bounded by the tree's node count (no exception paths
exist in the embedding). -/
theorem validate_total_on_all_shapes :
    (∀ p : String, validateObject .vnull p = [] ∧ validateObject .vundef p = []
      ∧ validateObject .vfun p = [])
    ∧ (∀ (p s : String) (n : Int) (b : Bool), validateObject (.vstr s) p = []
        ∧ validateObject (.vnum n) p = [] ∧ validateObject (.vbool b) p = [])
    ∧ (∀ (v : JVal) (p : String), (validateObject v p).length ≤ 5 * sizeJ v)
    ∧ (∀ (obj : JVal) (r : ReplacerArg) (s : SpaceArg),
        (validate obj r s).warnings.length ≤ 2 + 5 * sizeJ obj) := by
  refine ⟨fun p => ⟨rfl, rfl, rfl⟩, fun p s n b => ⟨rfl, rfl, rfl⟩,
    validateObject_length_le, ?_⟩
  intro obj r s
  have h1 := validateObject_length_le obj "root"
  have h2 : (callLevelWarnings r s).length ≤ 2 := by
    cases r <;> cases s <;> simp [callLevelWarnings, replacerSupplied, spaceSupplied]
  show (callLevelWarnings r s ++ validateObject obj "root").length ≤ 2 + 5 * sizeJ obj
  rw [List.length_append]
  omega

/-- Claim C9: `stringify` always computes the validation of the original
arguments; on serializer success it packages the serializer's text with
that validation, on serializer failure the failure propagates unchanged
with no partial result; and the serializer receives the original tree —
a probe serializer can still see the indexed key that `optimize` would
have removed. -/
theorem stringify_serializer_contract (serializer : PlatformSerializer)
    (obj : JVal) (r : ReplacerArg) (s : SpaceArg) :
    (∀ e, serializer obj r s = .error e → stringify serializer obj r s = .error e)
    ∧ (∀ j, serializer obj r s = .ok j →
        stringify serializer obj r s =
          .ok { json := j, validation := validate obj r s,
                optimized := (validate obj r s).isOptimized })
    ∧ stringify probeSerializer mediumOnlyObj .rnull .snull =
        .ok { json := "saw the indexed key",
              validation := validate mediumOnlyObj .rnull .snull,
              optimized := false }
    ∧ probeSerializer (optimize mediumOnlyObj) .rnull .snull = .ok "no indexed key" := by
  refine ⟨?_, ?_, ?_, rfl⟩
  · intro e h; simp [stringify, h]
  · intro j h; simp [stringify, h]
  · rfl

/-- Witness for claim C9: a serializer that always throws (as on a cyclic
structure) has its failure returned unchanged by `stringify`. -/
theorem stringify_serializer_contract_witness :
    stringify (fun _ _ _ => .error "Converting circular structure to JSON")
        .vnull .rnull .snull
      = .error "Converting circular structure to JSON" :=
  (stringify_serializer_contract (fun _ _ _ => .error "Converting circular structure to JSON")
    .vnull .rnull .snull).1 "Converting circular structure to JSON" rfl

/-- Claim C10: at an object node with no own `toJSON` (enumerable or not)
whose prototype is custom and exposes a callable `toJSON`, the traversal
pushes both the `toJSON` warning (the node-level lookup sees the inherited
method through the prototype chain) and the `prototype-toJSON` warning, in
that order, at the node's path, both high impact. -/
theorem inherited_toJSON_double_warning (f ne : JFields) (sym : Nat) (p : String)
    (hf : lookupField f "toJSON" = none) (hne : lookupField ne "toJSON" = none) :
    validateObject (.vobj f ne sym (.custom true)) p
      = toJSONWarning p :: protoToJSONWarning p ::
          ((if anyKeyF indexedKeyTest f then [indexedWarning p] else [])
            ++ (if 0 < sym then [symbolKeysWarning p] else [])
            ++ (if 0 < lenF ne then [nonEnumWarning p (keysF ne)] else [])
            ++ validateFields f p)
    ∧ (toJSONWarning p).impact = Impact.high
    ∧ (protoToJSONWarning p).impact = Impact.high := by
  refine ⟨?_, rfl, rfl⟩
  have hcall : objToJSONCallable f ne (.custom true) = true := by
    simp [objToJSONCallable, hf, hne, protoCustomToJSON]
  simp [validateObject, nodeLocalWarnings, hcall, protoCustomToJSON]

/-- Witness for claim C10 at a concrete empty object with a custom
prototype exposing `toJSON`. -/
theorem inherited_toJSON_double_warning_witness :
    validateObject (.vobj .nil .nil 0 (.custom true)) "root"
      = [toJSONWarning "root", protoToJSONWarning "root"]
    ∧ (toJSONWarning "root").impact = Impact.high
    ∧ (protoToJSONWarning "root").impact = Impact.high := by
  have h := inherited_toJSON_double_warning .nil .nil 0 "root" rfl rfl
  refine ⟨?_, h.2.1, h.2.2⟩
  rw [h.1]
  rfl
